import Mathlib

/-!
Verification of the foxbox taxonomy router (src/src/taxonomy_router.rs) and the
constraint combinator (src/components/taxonomy/src/util.rs), as a shallow
embedding in Lean 4.
-/

namespace Foxbox

/-- Tri-state constraint marker from components/taxonomy/src/util.rs:
`Empty` expresses no constraint, `Exactly x` expects the specific value `x`,
`Conflict` records that contradictory constraints were combined. -/
inductive Exactly (T : Type) where
  | empty : Exactly T
  | exactly (x : T) : Exactly T
  | conflict : Exactly T
  deriving DecidableEq

/-- `Exactly::and` from util.rs: combine two constraints, arm for arm. -/
def Exactly.and {T : Type} [DecidableEq T] : Exactly T → Exactly T → Exactly T
  | .conflict, _ => .conflict
  | _, .conflict => .conflict
  | .empty, x => x
  | x, .empty => x
  | .exactly x, .exactly y => if x = y then .exactly y else .conflict

/-- `impl Default for Exactly` in util.rs returns `Exactly::Empty`. -/
instance (T : Type) : Inhabited (Exactly T) := ⟨Exactly.empty⟩

theorem Exactly.conflict_and {T : Type} [DecidableEq T] (x : Exactly T) :
    Exactly.and Exactly.conflict x = Exactly.conflict := by
  cases x <;> rfl

theorem Exactly.and_conflict {T : Type} [DecidableEq T] (x : Exactly T) :
    Exactly.and x Exactly.conflict = Exactly.conflict := by
  cases x <;> rfl

theorem Exactly.empty_and {T : Type} [DecidableEq T] (x : Exactly T) :
    Exactly.and Exactly.empty x = x := by
  cases x <;> rfl

theorem Exactly.and_empty {T : Type} [DecidableEq T] (x : Exactly T) :
    Exactly.and x Exactly.empty = x := by
  cases x <;> rfl

theorem Exactly.exactly_and_exactly {T : Type} [DecidableEq T] (x y : T) :
    Exactly.and (Exactly.exactly x) (Exactly.exactly y) =
      if x = y then Exactly.exactly y else Exactly.conflict := rfl

theorem Exactly.foldl_conflict {T : Type} [DecidableEq T] (l : List (Exactly T)) :
    List.foldl Exactly.and Exactly.conflict l = Exactly.conflict := by
  induction l with
  | nil => rfl
  | cons hd tl ih => simpa [Exactly.and] using ih

/-- C2: the combine operation satisfies the case equations of util.rs: Conflict
is absorbing on both sides, Empty is neutral on both sides, two equal pinned
values combine to that value, two distinct pinned values conflict, and the
default value is Empty (unconstrained). -/
theorem exactly_and_spec {T : Type} [DecidableEq T] (x : Exactly T) (a b : T) :
    Exactly.and Exactly.conflict x = Exactly.conflict ∧
    Exactly.and x Exactly.conflict = Exactly.conflict ∧
    Exactly.and Exactly.empty x = x ∧
    Exactly.and x Exactly.empty = x ∧
    (a = b → Exactly.and (Exactly.exactly a) (Exactly.exactly b) = Exactly.exactly b) ∧
    (a ≠ b → Exactly.and (Exactly.exactly a) (Exactly.exactly b) = Exactly.conflict) ∧
    (default : Exactly T) = Exactly.empty := by
  refine ⟨Exactly.conflict_and x, Exactly.and_conflict x, Exactly.empty_and x,
          Exactly.and_empty x, ?_, ?_, rfl⟩
  · intro h
    simp [Exactly.exactly_and_exactly, h]
  · intro h
    simp [Exactly.exactly_and_exactly, h]

theorem exactly_and_spec_witness :
    Exactly.and (Exactly.exactly (1 : Nat)) (Exactly.exactly 1) = Exactly.exactly 1 ∧
    Exactly.and (Exactly.exactly (1 : Nat)) (Exactly.exactly 2) = Exactly.conflict :=
  ⟨(exactly_and_spec (Exactly.exactly 5) 1 1).2.2.2.2.1 rfl,
   (exactly_and_spec (Exactly.exactly 5) 1 2).2.2.2.2.2.1 (by decide)⟩

/-- C3: `Exactly::and` is commutative and associative, Empty is a two-sided
identity, and a left fold from Empty that has reached Conflict on a prefix
stays Conflict over any further inputs. -/
theorem exactly_and_fold_spec {T : Type} [DecidableEq T] :
    (∀ a b : Exactly T, Exactly.and a b = Exactly.and b a) ∧
    (∀ a b c : Exactly T,
      Exactly.and (Exactly.and a b) c = Exactly.and a (Exactly.and b c)) ∧
    (∀ a : Exactly T,
      Exactly.and Exactly.empty a = a ∧ Exactly.and a Exactly.empty = a) ∧
    (∀ pre suf : List (Exactly T),
      List.foldl Exactly.and Exactly.empty pre = Exactly.conflict →
      List.foldl Exactly.and Exactly.empty (pre ++ suf) = Exactly.conflict) := by
  refine ⟨?_, ?_, fun a => ⟨Exactly.empty_and a, Exactly.and_empty a⟩, ?_⟩
  · intro a b
    cases a <;> cases b <;>
      simp only [Exactly.conflict_and, Exactly.and_conflict, Exactly.empty_and,
                 Exactly.and_empty, Exactly.exactly_and_exactly]
    rename_i x y
    by_cases h : x = y
    · subst h; simp
    · rw [if_neg h, if_neg (Ne.symm h)]
  · intro a b c
    cases a <;> cases b <;> cases c <;>
      simp only [Exactly.conflict_and, Exactly.and_conflict, Exactly.empty_and,
                 Exactly.and_empty, Exactly.exactly_and_exactly]
    rename_i x y z
    by_cases hxy : x = y
    · subst hxy
      by_cases hyz : x = z
      · subst hyz
        simp [Exactly.exactly_and_exactly]
      · simp [Exactly.exactly_and_exactly, hyz, Exactly.and_conflict]
    · by_cases hyz : y = z
      · subst hyz
        simp [Exactly.exactly_and_exactly, hxy, Exactly.conflict_and]
      · simp [Exactly.exactly_and_exactly, hxy, hyz, Exactly.and_conflict,
              Exactly.conflict_and]
  · intro pre suf h
    rw [List.foldl_append, h, Exactly.foldl_conflict]

theorem exactly_and_fold_spec_witness :
    List.foldl Exactly.and Exactly.empty
      ([Exactly.exactly (1 : Nat), Exactly.exactly 2] ++ [Exactly.empty, Exactly.exactly 1])
      = Exactly.conflict :=
  (exactly_and_fold_spec (T := Nat)).2.2.2
    [Exactly.exactly 1, Exactly.exactly 2] [Exactly.empty, Exactly.exactly 1] (by decide)

/-- Generic JSON tree: the model of the serde_json values the router decodes
request bodies into and serializes responses from. -/
inductive Json where
  | null : Json
  | bool (b : Bool) : Json
  | num (n : Int) : Json
  | str (s : String) : Json
  | arr (xs : List Json) : Json
  | obj (fields : List (String × Json)) : Json

mutual

/-- Model of serde_json::to_string: a canonical textual rendering (string
escaping omitted). -/
def Json.serialize : Json → String
  | .null => "null"
  | .bool true => "true"
  | .bool false => "false"
  | .num n => toString n
  | .str s => "\"" ++ s ++ "\""
  | .arr xs => "[" ++ Json.serializeArr xs ++ "]"
  | .obj fs => "\x7b" ++ Json.serializeObj fs ++ "\x7d"

/-- Comma-separated rendering of a JSON array's elements. -/
def Json.serializeArr : List Json → String
  | [] => ""
  | [x] => Json.serialize x
  | x :: y :: rest => Json.serialize x ++ "," ++ Json.serializeArr (y :: rest)

/-- Comma-separated rendering of a JSON object's fields. -/
def Json.serializeObj : List (String × Json) → String
  | [] => ""
  | [(k, v)] => "\"" ++ k ++ "\":" ++ Json.serialize v
  | (k, v) :: f :: rest =>
      "\"" ++ k ++ "\":" ++ Json.serialize v ++ "," ++ Json.serializeObj (f :: rest)

end

/-- Modelled from the spec: the opaque binary value Binary of
foxbox_taxonomy::values (not under src/): raw bytes plus the mimetype
identifier they carry. -/
structure Binary where
  data : List Nat
  mimetype : String
  deriving DecidableEq

/-- Modelled from the spec: a domain value (foxbox_taxonomy::values::Value,
not under src/) is either structured (a JSON tree) or an opaque binary blob. -/
inductive Value where
  | json (j : Json) : Value
  | binary (b : Binary) : Value

/-- Modelled from the spec: `downcast::<Binary>` on a value succeeds exactly
when the value is the binary variant. -/
def Value.downcastBinary : Value → Option Binary
  | .binary b => some b
  | .json _ => none

/-- The two payload formats negotiated by the router (format::JSON and
format::BINARY of foxbox_taxonomy::values). -/
inductive Format where
  | json : Format
  | binary : Format
  deriving DecidableEq

/-- Modelled from the spec: error type reported per entry by the external
taxonomy manager. -/
structure Error where
  msg : String
  deriving DecidableEq

/-- Modelled from the spec: a Payload (foxbox_taxonomy::io, not under src/)
carries a typed value together with the format it was encoded with. -/
structure Payload where
  value : Value
  fmt : Format

/-- Modelled from the spec: `Payload::from_value` packs a value with the
requested format. -/
def Payload.from_value (v : Value) (f : Format) : Except Error Payload :=
  Except.ok { value := v, fmt := f }

/-- Modelled from the spec: `Payload::to_value` recovers the carried value when
asked for the format the payload was encoded with, and fails otherwise. -/
def Payload.to_value (p : Payload) (f : Format) : Except Error Value :=
  if p.fmt = f then Except.ok p.value else Except.error { msg := "format mismatch" }

/-- `ResultMap<Id<Channel>, Option<(Payload, Arc<Format>)>, Error>` from
taxonomy_router.rs (type GetterResultMap), keyed by channel id. -/
abbrev GetterResultMap := List (String × Except Error (Option (Payload × Format)))

/-- Body of an encoded HTTP response: raw bytes, text, or nothing. -/
inductive RespBody where
  | bytes (data : List Nat) : RespBody
  | str (s : String) : RespBody
  | empty : RespBody
  deriving DecidableEq

/-- The observable parts of an iron Response the router constructs: status
code, Content-Type header, body. -/
structure HttpResponse where
  status : Nat
  contentType : Option String
  body : RespBody
  deriving DecidableEq

/-- build_binary_response from taxonomy_router.rs: raw payload bytes with
status 200 and the payload's mimetype as Content-Type. -/
def build_binary_response (payload : Binary) : HttpResponse :=
  { status := 200, contentType := some payload.mimetype, body := RespBody.bytes payload.data }

/-- build_response from taxonomy_router.rs: the object serialized as JSON text
with status 200 and the JSON content type. -/
def build_response (obj : Json) : HttpResponse :=
  { status := 200, contentType := some "application/json",
    body := RespBody.str (Json.serialize obj) }

/-- ParseError of foxbox_taxonomy::parse (not under src/), modelled from the
spec: a JSON syntax error, or a field error carrying location and message. -/
inductive ParseError where
  | json (msg : String) : ParseError
  | field (path : String) (msg : String) : ParseError
  deriving DecidableEq

/-- Modelled from the spec: serde_json::to_string of a ParseError. -/
def ParseError.serialize : ParseError → String
  | .json m => "\x7b\"JsonParsing\":\"" ++ m ++ "\"\x7d"
  | .field p m => "\x7b\"path\":\"" ++ p ++ "\",\"error\":\"" ++ m ++ "\"\x7d"

/-- build_parse_error from taxonomy_router.rs: status 400, the serialized
parse error as body, and ContentType::plaintext (the FIXME in the source
notes it should be JSON). -/
def build_parse_error (obj : ParseError) : HttpResponse :=
  { status := 400, contentType := some "text/plain",
    body := RespBody.str (ParseError.serialize obj) }

/-- The loop over map.values() inside get_binary: return the first successful
entry whose payload converts to the binary representation and downcasts to
Binary; skip entries that are errors, absent, or not binary. -/
def get_binary_scan : List (Except Error (Option (Payload × Format))) → Option Binary
  | [] => none
  | map_value :: rest =>
    match map_value with
    | Except.ok (some (payload, _)) =>
      match payload.to_value Format.binary with
      | Except.ok data =>
        match data.downcastBinary with
        | some b => some { mimetype := b.mimetype, data := b.data }
        | none => get_binary_scan rest
      | Except.error _ => get_binary_scan rest
    | _ => get_binary_scan rest

/-- get_binary from taxonomy_router.rs: a result map counts as a binary
payload only when it has exactly one element and that element holds a value
convertible to Binary. -/
def get_binary (map : GetterResultMap) : Option Binary :=
  if map.length ≠ 1 then none
  else get_binary_scan (map.map Prod.snd)

/-- Modelled from the spec: ToJSON of a payload (serialization of domain
value types is out of scope for the router). -/
def payloadToJson (p : Payload) : Json :=
  match p.value with
  | Value.json j => j
  | Value.binary b =>
      Json.obj [("data", Json.arr (b.data.map fun n => Json.num (Int.ofNat n))),
                ("mimetype", Json.str b.mimetype)]

/-- Modelled from the spec: ToJSON of one getter result; a per-entry error is
embedded as that entry's value. -/
def getterResultToJson : Except Error (Option (Payload × Format)) → Json
  | Except.error e => Json.obj [("Error", Json.str e.msg)]
  | Except.ok none => Json.null
  | Except.ok (some (p, _)) => payloadToJson p

/-- ToJSON of a whole getter result map: one field per entry, errors
embedded. -/
def mapToJson (map : GetterResultMap) : Json :=
  Json.obj (map.map fun kv => (kv.1, getterResultToJson kv.2))

/-- Body of the binary_response macro in taxonomy_router.rs: if get_binary
recognizes a singleton binary result, answer with the raw bytes, otherwise
serialize the whole result map as JSON. -/
def binary_response (res : GetterResultMap) : HttpResponse :=
  match get_binary res with
  | some payload => build_binary_response payload
  | none => build_response (mapToJson res)

/-- Modelled from the spec: ChannelSelector (foxbox_taxonomy::selector, not
under src/): a composable filter; only the id and feature constraints are
relevant to the router, and pinning combines constraints via Exactly::and. -/
structure ChannelSelector where
  id : Exactly String
  feature : Exactly String

/-- ChannelSelector::new: a fresh, fully unconstrained selector. -/
def ChannelSelector.new : ChannelSelector :=
  { id := Exactly.empty, feature := Exactly.empty }

/-- Modelled from the spec: ChannelSelector::with_id pins the id constraint
through the combine operation. -/
def ChannelSelector.with_id (s : ChannelSelector) (i : String) : ChannelSelector :=
  { s with id := Exactly.and s.id (Exactly.exactly i) }

/-- Modelled from the spec: ServiceSelector (foxbox_taxonomy::selector, not
under src/), reduced to its id constraint. -/
structure ServiceSelector where
  id : Exactly String

/-- ServiceSelector::new: a fresh, fully unconstrained selector. -/
def ServiceSelector.new : ServiceSelector := { id := Exactly.empty }

/-- Targetted of foxbox_taxonomy::api: one payload aimed at the channels the
selector list matches. -/
structure Targetted where
  payload : Payload
  select : List ChannelSelector

/-- User of foxbox_taxonomy::api: anonymous, or the id claimed by a session
token. -/
inductive User where
  | none : User
  | id (s : String) : User
  deriving DecidableEq

/-- Result map of send_values: per-channel unit-or-error. -/
abbrev SendResultMap := List (String × Except Error Unit)

/-- Modelled from the spec: ToJSON of a send result map; success serializes
as null, per-entry errors are embedded. -/
def sendMapToJson (map : SendResultMap) : Json :=
  Json.obj (map.map fun kv =>
    (kv.1, match kv.2 with
           | Except.ok _ => Json.null
           | Except.error e => Json.obj [("Error", Json.str e.msg)]))

/-- HTTP method of an incoming request. -/
inductive Method where
  | get : Method
  | put : Method
  | post : Method
  | delete : Method
  | other (s : String) : Method
  deriving DecidableEq

/-- Display of a method, as interpolated into the Bad method message. -/
def methodToString : Method → String
  | .get => "GET"
  | .put => "PUT"
  | .post => "POST"
  | .delete => "DELETE"
  | .other s => s

/-- The parts of an iron Request the router reads: the full url, the method,
the path segments relative to the api/v1 mount, the bearer token of the
Authorization header, the declared content type, and the raw body bytes. -/
structure HttpRequest where
  url : String
  method : Method
  path : List String
  authorization : Option String
  contentType : Option String
  body : List Nat

/-- The external collaborators the router calls and the spec leaves out of
scope (session token validation, UTF-8 body reading, serde_json and
foxbox_taxonomy parsing), kept abstract as an environment of total
functions. -/
structure Env where
  validateToken : String → Except Unit String
  decodeUtf8 : List Nat → Except Unit String
  parseJson : String → Except String Json
  parseServiceSelectors : String → Except ParseError (List ServiceSelector)
  parseChannelSelectors : String → Except ParseError (List ChannelSelector)
  parseChannelSelectorsWithFeature : String → Except ParseError (List ChannelSelector)
  parseTargetMap : String → Except ParseError (List Targetted)
  takeServiceSelectors : Json → String → Except ParseError (List ServiceSelector)
  takeChannelSelectors : Json → String → Except ParseError (List ChannelSelector)
  takeTags : Json → String → Except ParseError (List String)

/-- The AdapterManager operations the router dispatches to. The external
manager is out of scope; listing and tag operations return their ToJSON
serialization directly, since serializing domain types is also out of
scope. -/
structure Api where
  fetch_values : List ChannelSelector → User → GetterResultMap
  send_values : List Targetted → User → SendResultMap
  get_services : List ServiceSelector → Json
  get_channels : List ChannelSelector → Json
  add_service_tags : List ServiceSelector → List String → Json
  add_channel_tags : List ChannelSelector → List String → Json
  remove_service_tags : List ServiceSelector → List String → Json
  remove_channel_tags : List ChannelSelector → List String → Json

/-- Response::with(Status::Unauthorized): status 401, nothing else set. -/
def unauthorizedResponse : HttpResponse :=
  { status := 401, contentType := none, body := RespBody.empty }

/-- The response iron produces when itry! propagates an internal error. -/
def internalErrorResponse : HttpResponse :=
  { status := 500, contentType := none, body := RespBody.empty }

/-- The 404 fallthrough at the end of handle, naming the requested url. -/
def notFoundResponse (url : String) : HttpResponse :=
  { status := 404, contentType := none,
    body := RespBody.str ("Unknown url: " ++ url) }

/-- The MethodNotAllowed arm of the get_post_api macro. -/
def badMethodResponse (m : Method) : HttpResponse :=
  { status := 405, contentType := none,
    body := RespBody.str ("Bad method: " ++ methodToString m) }

/-- The get_post_api macro of taxonomy_router.rs for one (operation, selector
kind, path) triple: GET lists through one fresh unconstrained selector, POST
decodes the body as a selector sequence, any other method is 405. -/
def get_post_api {σ : Type} (env : Env) (req : HttpRequest) (newSel : σ)
    (parseSels : String → Except ParseError (List σ))
    (call : List σ → Json) : HttpResponse :=
  match req.method with
  | Method.get => build_response (call [newSel])
  | Method.post =>
    match env.decodeUtf8 req.body with
    | Except.error _ => internalErrorResponse
    | Except.ok source =>
      match parseSels source with
      | Except.ok arg => build_response (call arg)
      | Except.error err => build_parse_error err
  | m => badMethodResponse m

/-- The payload_api2 macro of taxonomy_router.rs: decode one JSON body,
extract two named fields, call the two-argument operation. -/
def payload_api2 {α β : Type} (env : Env) (req : HttpRequest)
    (take1 : Json → String → Except ParseError α) (name1 : String)
    (take2 : Json → String → Except ParseError β) (name2 : String)
    (call : α → β → Json) : HttpResponse :=
  match env.decodeUtf8 req.body with
  | Except.error _ => internalErrorResponse
  | Except.ok source =>
    match env.parseJson source with
    | Except.error err => build_parse_error (ParseError.json err)
    | Except.ok json =>
      match take1 json name1 with
      | Except.error err => build_parse_error err
      | Except.ok arg_1 =>
        match take2 json name2 with
        | Except.error err => build_parse_error err
        | Except.ok arg_2 => build_response (call arg_1 arg_2)

/-- Character-list prefix test used to model str::starts_with (the library
String.startsWith does not reduce inside the kernel). -/
def charsBegin : List Char → List Char → Bool
  | [], _ => true
  | _ :: _, [] => false
  | p :: ps, c :: cs => if p = c then charsBegin ps cs else false

/-- str::starts_with on strings. -/
def starts_with (s p : String) : Bool := charsBegin p.data s.data

/-- The PUT channel/:id arm of handle: read the declared content type
(octet-stream when absent); a type starting with application/json makes the
body a parsed JSON payload, anything else an opaque binary payload carrying
that content type as mimetype; then send to the selector pinned to the id. -/
def put_channel (env : Env) (api : Api) (req : HttpRequest) (user : User)
    (i : String) : HttpResponse :=
  let selector := [ChannelSelector.new.with_id i]
  let content_type := match req.contentType with
    | some val => val
    | none => "application/octet-stream"
  if starts_with content_type "application/json" then
    match env.decodeUtf8 req.body with
    | Except.error _ => internalErrorResponse
    | Except.ok source =>
      match env.parseJson source with
      | Except.error err => build_parse_error (ParseError.json err)
      | Except.ok json =>
        match Payload.from_value (Value.json json) Format.json with
        | Except.error _ => internalErrorResponse
        | Except.ok payload =>
          build_response (sendMapToJson
            (api.send_values [{ payload := payload, select := selector }] user))
  else
    match Payload.from_value
        (Value.binary { data := req.body, mimetype := content_type })
        Format.binary with
    | Except.error _ => internalErrorResponse
    | Except.ok payload =>
      build_response (sendMapToJson
        (api.send_values [{ payload := payload, select := selector }] user))

/-- The payload_api arm for PUT channels/get: decode a selector sequence from
the body and route fetch_values through the binary_response encoder. -/
def fetch_values_route (env : Env) (api : Api) (req : HttpRequest)
    (user : User) : HttpResponse :=
  match env.decodeUtf8 req.body with
  | Except.error _ => internalErrorResponse
  | Except.ok source =>
    match env.parseChannelSelectorsWithFeature source with
    | Except.ok arg => binary_response (api.fetch_values arg user)
    | Except.error err => build_parse_error err

/-- The payload_api arm for PUT channels/set: decode a target map from the
body and send the values. -/
def send_values_route (env : Env) (api : Api) (req : HttpRequest)
    (user : User) : HttpResponse :=
  match env.decodeUtf8 req.body with
  | Except.error _ => internalErrorResponse
  | Except.ok source =>
    match env.parseTargetMap source with
    | Except.ok arg => build_response (sendMapToJson (api.send_values arg user))
    | Except.error err => build_parse_error err

/-- The route-matching part of handle after identity extraction: the rules of
taxonomy_router.rs in source order, first structural match wins, 404
fallthrough naming the url. -/
def dispatch (env : Env) (api : Api) (req : HttpRequest) (user : User) : HttpResponse :=
  match req.method, req.path with
  | Method.get, ["channel", i] =>
    binary_response (api.fetch_values [ChannelSelector.new.with_id i] user)
  | Method.put, ["channel", i] => put_channel env api req user i
  | _, ["services"] =>
    get_post_api env req ServiceSelector.new env.parseServiceSelectors api.get_services
  | _, ["channels"] =>
    get_post_api env req ChannelSelector.new env.parseChannelSelectors api.get_channels
  | Method.put, ["channels", "get"] => fetch_values_route env api req user
  | Method.put, ["channels", "set"] => send_values_route env api req user
  | Method.post, ["services", "tags"] =>
    payload_api2 env req env.takeServiceSelectors "services"
      env.takeTags "tags" api.add_service_tags
  | Method.post, ["channels", "tags"] =>
    payload_api2 env req env.takeChannelSelectors "channels"
      env.takeTags "tags" api.add_channel_tags
  | Method.delete, ["services", "tags"] =>
    payload_api2 env req env.takeServiceSelectors "services"
      env.takeTags "tags" api.remove_service_tags
  | Method.delete, ["channels", "tags"] =>
    payload_api2 env req env.takeChannelSelectors "channels"
      env.takeTags "tags" api.remove_channel_tags
  | _, _ => notFoundResponse req.url

/-- handle from taxonomy_router.rs: derive the caller identity from the
Authorization Bearer header (rejecting requests whose token fails
validation), then run the route table. -/
def handle (env : Env) (api : Api) (req : HttpRequest) : HttpResponse :=
  match req.authorization with
  | some token =>
    match env.validateToken token with
    | Except.ok i => dispatch env api req (User.id i)
    | Except.error _ => unauthorizedResponse
  | none => dispatch env api req User.none

/-- A concrete binary value for the closed checks below. -/
def testBinary : Binary := { data := [1, 2, 3, 10, 11, 12], mimetype := "image/png" }

/-- A concrete binary payload for the closed checks below. -/
def testPayload : Payload := { value := Value.binary testBinary, fmt := Format.binary }

/-- A getter result map holding exactly one successful binary entry. -/
def testBinaryMap : GetterResultMap :=
  [("getter:binary", Except.ok (some (testPayload, Format.binary)))]

/-- C1: a getter result map with exactly one entry that is a success carrying
a value convertible to Binary encodes as the raw bytes of that value with
status 200 and its mimetype as Content-Type; every other map (zero entries,
several entries, a non-binary or absent value, or an error entry) encodes as
the whole map serialized as JSON, with the JSON content type and status 200,
per-entry errors embedded by mapToJson. -/
theorem binary_response_singleton_rule (m : GetterResultMap) :
    (∀ k p f v b,
      m = [(k, Except.ok (some (p, f)))] →
      p.to_value Format.binary = Except.ok v →
      v.downcastBinary = some b →
      binary_response m =
        { status := 200, contentType := some b.mimetype,
          body := RespBody.bytes b.data }) ∧
    ((¬ ∃ k p f v b, m = [(k, Except.ok (some (p, f)))] ∧
        p.to_value Format.binary = Except.ok v ∧ v.downcastBinary = some b) →
      binary_response m =
        { status := 200, contentType := some "application/json",
          body := RespBody.str (Json.serialize (mapToJson m)) }) := by
  constructor
  · rintro k p f v b rfl h1 h2
    simp [binary_response, get_binary, get_binary_scan, h1, h2, build_binary_response]
  · intro h
    have hnone : get_binary m = none := by
      match m with
      | [] => rfl
      | [(k, Except.error e)] => rfl
      | [(k, Except.ok none)] => rfl
      | [(k, Except.ok (some (p, f)))] =>
        cases hv : p.to_value Format.binary with
        | error e => simp [get_binary, get_binary_scan, hv]
        | ok v =>
          cases hb : v.downcastBinary with
          | none => simp [get_binary, get_binary_scan, hv, hb]
          | some b => exact absurd ⟨k, p, f, v, b, rfl, hv, hb⟩ h
      | x :: y :: rest => simp [get_binary]
    simp [binary_response, hnone, build_response]

theorem binary_response_singleton_rule_witness :
    binary_response testBinaryMap =
      { status := 200, contentType := some "image/png",
        body := RespBody.bytes [1, 2, 3, 10, 11, 12] } :=
  (binary_response_singleton_rule testBinaryMap).1 "getter:binary"
    testPayload Format.binary (Value.binary testBinary) testBinary rfl rfl rfl

/-- C8: packing raw bytes with a mimetype into a binary payload exactly as the
PUT channel/:id handler does, then decoding it back through the response
encoder's path (to_value at format BINARY, downcast to Binary, or get_binary
on a singleton success map) returns byte-identical data and the identical
mimetype. -/
theorem binary_roundtrip_spec (data : List Nat) (mimetype : String)
    (k : String) (f : Format) :
    ∃ p,
      Payload.from_value (Value.binary { data := data, mimetype := mimetype })
          Format.binary = Except.ok p ∧
      p.to_value Format.binary =
        Except.ok (Value.binary { data := data, mimetype := mimetype }) ∧
      (Value.binary { data := data, mimetype := mimetype }).downcastBinary =
        some { data := data, mimetype := mimetype } ∧
      get_binary [(k, Except.ok (some (p, f)))] =
        some { data := data, mimetype := mimetype } := by
  refine ⟨_, rfl, rfl, rfl, ?_⟩
  simp [get_binary, get_binary_scan, Payload.to_value, Value.downcastBinary,
        Payload.from_value]

/-- A concrete environment whose token validation rejects and whose parsers
fail, exercising the error paths in the closed checks. -/
def testEnv : Env :=
  { validateToken := fun _ => Except.error ()
  , decodeUtf8 := fun _ => Except.ok "body"
  , parseJson := fun _ => Except.error "syntax"
  , parseServiceSelectors := fun _ => Except.error (ParseError.field "body" "missing")
  , parseChannelSelectors := fun _ => Except.error (ParseError.field "body" "missing")
  , parseChannelSelectorsWithFeature := fun _ => Except.error (ParseError.field "body" "missing")
  , parseTargetMap := fun _ => Except.error (ParseError.field "body" "missing")
  , takeServiceSelectors := fun _ _ => Except.error (ParseError.field "body.services" "missing")
  , takeChannelSelectors := fun _ _ => Except.error (ParseError.field "body.channels" "missing")
  , takeTags := fun _ _ => Except.error (ParseError.field "body.tags" "missing") }

/-- A concrete environment whose token validation and parsers succeed,
exercising the success paths in the closed checks. -/
def testEnvOk : Env :=
  { validateToken := fun s => Except.ok s
  , decodeUtf8 := fun _ => Except.ok "body"
  , parseJson := fun _ => Except.ok (Json.obj [])
  , parseServiceSelectors := fun _ => Except.ok []
  , parseChannelSelectors := fun _ => Except.ok []
  , parseChannelSelectorsWithFeature := fun _ => Except.ok []
  , parseTargetMap := fun _ => Except.ok []
  , takeServiceSelectors := fun _ _ => Except.ok []
  , takeChannelSelectors := fun _ _ => Except.ok []
  , takeTags := fun _ _ => Except.ok [] }

/-- A concrete manager with nothing registered: empty listings and empty
result maps. -/
def testApi : Api :=
  { fetch_values := fun _ _ => []
  , send_values := fun _ _ => []
  , get_services := fun _ => Json.arr []
  , get_channels := fun _ => Json.arr []
  , add_service_tags := fun _ _ => Json.obj []
  , add_channel_tags := fun _ _ => Json.obj []
  , remove_service_tags := fun _ _ => Json.obj []
  , remove_channel_tags := fun _ _ => Json.obj [] }

/-- GET /bogus: a request no route rule matches. -/
def reqBogus : HttpRequest :=
  { url := "http://localhost:3000/api/v1/bogus", method := Method.get,
    path := ["bogus"], authorization := none, contentType := none, body := [] }

/-- PUT /services: a routed path with a method no rule binds. -/
def reqPutServices : HttpRequest :=
  { url := "http://localhost:3000/api/v1/services", method := Method.put,
    path := ["services"], authorization := none, contentType := none, body := [] }

/-- GET /services without an Authorization header. -/
def reqGetServices : HttpRequest :=
  { url := "http://localhost:3000/api/v1/services", method := Method.get,
    path := ["services"], authorization := none, contentType := none, body := [] }

/-- POST /services without an Authorization header. -/
def reqPostServices : HttpRequest :=
  { url := "http://localhost:3000/api/v1/services", method := Method.post,
    path := ["services"], authorization := none, contentType := none, body := [] }

/-- GET /services carrying an invalid bearer token. -/
def reqBadToken : HttpRequest :=
  { url := "http://localhost:3000/api/v1/services", method := Method.get,
    path := ["services"], authorization := some "bad-token",
    contentType := none, body := [] }

/-- PUT /channel/setter:binary with no declared content type. -/
def reqPutChannelBinary : HttpRequest :=
  { url := "http://localhost:3000/api/v1/channel/setter:binary",
    method := Method.put, path := ["channel", "setter:binary"],
    authorization := none, contentType := none,
    body := [65, 66, 67, 68, 69, 70] }

/-- C5: a request whose Authorization Bearer token fails session validation
is answered 401 immediately, with no body processing and no dispatch (the
result is the constant unauthorized response, whatever the route table or
manager would do); a request without the header is dispatched with the
anonymous identity User::None. -/
theorem auth_spec (env : Env) (api : Api) (req : HttpRequest) :
    (∀ tok, req.authorization = some tok →
      env.validateToken tok = Except.error () →
      handle env api req = unauthorizedResponse) ∧
    (req.authorization = none →
      handle env api req = dispatch env api req User.none) := by
  constructor
  · intro tok hauth hval
    simp [handle, hauth, hval]
  · intro hauth
    simp [handle, hauth]

theorem auth_spec_witness :
    handle testEnv testApi reqBadToken = unauthorizedResponse ∧
    handle testEnvOk testApi reqBogus = dispatch testEnvOk testApi reqBogus User.none :=
  ⟨(auth_spec testEnv testApi reqBadToken).1 "bad-token" rfl rfl,
   (auth_spec testEnvOk testApi reqBogus).2 rfl⟩

/-- A response that, when its status is 400, declares text/plain. -/
def Plain400 (r : HttpResponse) : Prop :=
  r.status = 400 → r.contentType = some "text/plain"

theorem plain400_build_response (j : Json) : Plain400 (build_response j) := by
  intro h
  simp [build_response] at h

theorem plain400_build_binary_response (b : Binary) :
    Plain400 (build_binary_response b) := by
  intro h
  simp [build_binary_response] at h

theorem plain400_build_parse_error (e : ParseError) :
    Plain400 (build_parse_error e) := fun _ => rfl

theorem plain400_internal : Plain400 internalErrorResponse := by
  intro h
  simp [internalErrorResponse] at h

theorem plain400_notFound (url : String) : Plain400 (notFoundResponse url) := by
  intro h
  simp [notFoundResponse] at h

theorem plain400_badMethod (m : Method) : Plain400 (badMethodResponse m) := by
  intro h
  simp [badMethodResponse] at h

theorem plain400_binary_response (m : GetterResultMap) :
    Plain400 (binary_response m) := by
  unfold binary_response
  split
  · exact plain400_build_binary_response _
  · exact plain400_build_response _

theorem plain400_get_post_api {σ : Type} (env : Env) (req : HttpRequest)
    (newSel : σ) (parseSels : String → Except ParseError (List σ))
    (call : List σ → Json) :
    Plain400 (get_post_api env req newSel parseSels call) := by
  simp only [get_post_api]
  repeat' split
  all_goals
    first
    | exact plain400_build_response _
    | exact plain400_internal
    | exact plain400_build_parse_error _
    | exact plain400_badMethod _

theorem plain400_payload_api2 {α β : Type} (env : Env) (req : HttpRequest)
    (take1 : Json → String → Except ParseError α) (name1 : String)
    (take2 : Json → String → Except ParseError β) (name2 : String)
    (call : α → β → Json) :
    Plain400 (payload_api2 env req take1 name1 take2 name2 call) := by
  simp only [payload_api2]
  repeat' split
  all_goals
    first
    | exact plain400_build_response _
    | exact plain400_internal
    | exact plain400_build_parse_error _

theorem plain400_put_channel (env : Env) (api : Api) (req : HttpRequest)
    (user : User) (i : String) : Plain400 (put_channel env api req user i) := by
  simp only [put_channel]
  repeat' split
  all_goals
    first
    | exact plain400_build_response _
    | exact plain400_internal
    | exact plain400_build_parse_error _

theorem plain400_fetch_values_route (env : Env) (api : Api) (req : HttpRequest)
    (user : User) : Plain400 (fetch_values_route env api req user) := by
  simp only [fetch_values_route]
  repeat' split
  all_goals
    first
    | exact plain400_binary_response _
    | exact plain400_internal
    | exact plain400_build_parse_error _

theorem plain400_send_values_route (env : Env) (api : Api) (req : HttpRequest)
    (user : User) : Plain400 (send_values_route env api req user) := by
  simp only [send_values_route]
  repeat' split
  all_goals
    first
    | exact plain400_build_response _
    | exact plain400_internal
    | exact plain400_build_parse_error _

theorem plain400_dispatch (env : Env) (api : Api) (req : HttpRequest)
    (user : User) : Plain400 (dispatch env api req user) := by
  simp only [dispatch]
  split
  · exact plain400_binary_response _
  · exact plain400_put_channel _ _ _ _ _
  · exact plain400_get_post_api _ _ _ _ _
  · exact plain400_get_post_api _ _ _ _ _
  · exact plain400_fetch_values_route _ _ _ _
  · exact plain400_send_values_route _ _ _ _
  · exact plain400_payload_api2 _ _ _ _ _ _ _
  · exact plain400_payload_api2 _ _ _ _ _ _ _
  · exact plain400_payload_api2 _ _ _ _ _ _ _
  · exact plain400_payload_api2 _ _ _ _ _ _ _
  · exact plain400_notFound _

/-- C10: build_parse_error produces the 400 body-decode-failure response with
Content-Type text/plain even though the body is the JSON serialization of the
parse error; and every dispatch response with status 400 carries the
text/plain content type, so a client never sees a JSON content type on a
400. -/
theorem parse_error_content_type_spec (env : Env) (api : Api)
    (req : HttpRequest) (user : User) :
    (∀ e, build_parse_error e =
      { status := 400, contentType := some "text/plain",
        body := RespBody.str (ParseError.serialize e) }) ∧
    ((dispatch env api req user).status = 400 →
      (dispatch env api req user).contentType = some "text/plain" ∧
      (dispatch env api req user).contentType ≠ some "application/json") := by
  refine ⟨fun e => rfl, fun h => ⟨plain400_dispatch env api req user h, ?_⟩⟩
  rw [plain400_dispatch env api req user h]
  simp

theorem parse_error_content_type_spec_witness :
    build_parse_error (ParseError.json "syntax") =
      { status := 400, contentType := some "text/plain",
        body := RespBody.str (ParseError.serialize (ParseError.json "syntax")) } ∧
    (dispatch testEnv testApi reqPostServices User.none).contentType = some "text/plain" :=
  ⟨(parse_error_content_type_spec testEnv testApi reqPostServices User.none).1
      (ParseError.json "syntax"),
   ((parse_error_content_type_spec testEnv testApi reqPostServices User.none).2 rfl).1⟩

/-- C4 counterexample: PUT /services matches the services collection rule,
whose unbound-method arm answers 405 Bad method, not the 404 the claim
requires for a recognized path with an unbound method. -/
theorem put_services_is_405 :
    handle testEnv testApi reqPutServices =
      { status := 405, contentType := none,
        body := RespBody.str ("Bad method: " ++ "PUT") } ∧
    (handle testEnv testApi reqPutServices).status = 405 ∧ (405 : Nat) ≠ 404 := by
  refine ⟨rfl, rfl, by decide⟩

/-- Whether some route rule of dispatch structurally matches the method and
path, mirroring the match arms of dispatch (the collection rules match on the
path alone, any method). -/
def routeMatches : Method → List String → Bool
  | Method.get, ["channel", _] => true
  | Method.put, ["channel", _] => true
  | _, ["services"] => true
  | _, ["channels"] => true
  | Method.put, ["channels", "get"] => true
  | Method.put, ["channels", "set"] => true
  | Method.post, ["services", "tags"] => true
  | Method.post, ["channels", "tags"] => true
  | Method.delete, ["services", "tags"] => true
  | Method.delete, ["channels", "tags"] => true
  | _, _ => false

/-- C4 amended: a request matching no route rule is answered 404 with a text
body naming the requested url; but on the collection paths /services and
/channels (which the collection rules match on path alone) a method other
than GET or POST is answered 405 Bad method, not 404. -/
theorem fallback_404_amended (env : Env) (api : Api) (req : HttpRequest)
    (user : User) :
    (routeMatches req.method req.path = false →
      dispatch env api req user = notFoundResponse req.url) ∧
    (∀ p0, (p0 = "services" ∨ p0 = "channels") → req.path = [p0] →
      req.method ≠ Method.get → req.method ≠ Method.post →
      dispatch env api req user = badMethodResponse req.method) := by
  obtain ⟨url, method, path, auth, ct, body⟩ := req
  constructor
  · intro h
    simp only at h
    unfold dispatch
    split <;> simp_all [routeMatches]
  · intro p0 hp0 hpath hget hpost
    simp only at hpath hget hpost
    subst hpath
    rcases hp0 with rfl | rfl <;> cases method <;>
      first
      | exact absurd rfl hget
      | exact absurd rfl hpost
      | rfl

theorem fallback_404_amended_witness :
    dispatch testEnv testApi reqBogus User.none = notFoundResponse reqBogus.url ∧
    dispatch testEnv testApi reqPutServices User.none =
      badMethodResponse Method.put :=
  ⟨(fallback_404_amended testEnv testApi reqBogus User.none).1 rfl,
   (fallback_404_amended testEnv testApi reqPutServices User.none).2 "services"
     (Or.inl rfl) rfl (by decide) (by decide)⟩

/-- C7: PUT channel/:id builds the selector pinned to the id (the pin goes
through the constraint combiner) and sends one (payload, selector) target: a
declared content type starting with application/json makes the body a parsed
JSON payload, a parse failure answering the 400 parse-error response; any
other declared type sends the whole body as one opaque binary payload whose
mimetype is the declared content type, with application/octet-stream used
when no Content-Type header is present; the serialized result of send_values
is returned in each non-error case. -/
theorem put_channel_route_spec (env : Env) (api : Api) (req : HttpRequest)
    (user : User) (i : String) :
    (ChannelSelector.new.with_id i).id = Exactly.exactly i ∧
    (req.method = Method.put → req.path = ["channel", i] →
      ((∀ ct s j, req.contentType = some ct →
        starts_with ct "application/json" = true →
        env.decodeUtf8 req.body = Except.ok s →
        env.parseJson s = Except.ok j →
        dispatch env api req user =
          build_response (sendMapToJson (api.send_values
            [{ payload := { value := Value.json j, fmt := Format.json },
               select := [ChannelSelector.new.with_id i] }] user))) ∧
      (∀ ct s e, req.contentType = some ct →
        starts_with ct "application/json" = true →
        env.decodeUtf8 req.body = Except.ok s →
        env.parseJson s = Except.error e →
        dispatch env api req user = build_parse_error (ParseError.json e)) ∧
      (∀ ct, req.contentType = some ct →
        starts_with ct "application/json" = false →
        dispatch env api req user =
          build_response (sendMapToJson (api.send_values
            [{ payload := { value := Value.binary
                              { data := req.body, mimetype := ct },
                            fmt := Format.binary },
               select := [ChannelSelector.new.with_id i] }] user))) ∧
      (req.contentType = none →
        dispatch env api req user =
          build_response (sendMapToJson (api.send_values
            [{ payload := { value := Value.binary
                              { data := req.body,
                                mimetype := "application/octet-stream" },
                            fmt := Format.binary },
               select := [ChannelSelector.new.with_id i] }] user))))) := by
  refine ⟨rfl, ?_⟩
  obtain ⟨url, method, path, auth, ct, body⟩ := req
  intro hm hp
  simp only at hm hp
  subst hm
  subst hp
  refine ⟨?_, ?_, ?_, ?_⟩
  · rintro c s j rfl hst hdec hjson
    simp [dispatch, put_channel, hst, hdec, hjson, Payload.from_value]
  · rintro c s e rfl hst hdec hjson
    simp [dispatch, put_channel, hst, hdec, hjson]
  · rintro c rfl hst
    simp [dispatch, put_channel, hst, Payload.from_value]
  · rintro rfl
    simp [dispatch, put_channel, Payload.from_value,
          (by decide : starts_with "application/octet-stream" "application/json" = false)]

theorem put_channel_route_spec_witness :
    dispatch testEnvOk testApi reqPutChannelBinary User.none =
      build_response (sendMapToJson (testApi.send_values
        [{ payload := { value := Value.binary
                          { data := [65, 66, 67, 68, 69, 70],
                            mimetype := "application/octet-stream" },
                        fmt := Format.binary },
           select := [ChannelSelector.new.with_id "setter:binary"] }]
        User.none)) :=
  (((put_channel_route_spec testEnvOk testApi reqPutChannelBinary User.none
      "setter:binary").2 rfl rfl).2.2.2) rfl

/-- C9: on the /services and /channels collection routes, GET invokes the
listing operation on a single fresh unconstrained selector (so an empty
listing answers the body of serialized [] with status 200 and the JSON
content type), and POST invokes the same operation on the selector sequence
decoded from the body. -/
theorem collection_routes_spec (env : Env) (api : Api) (req : HttpRequest)
    (user : User) :
    ServiceSelector.new.id = Exactly.empty ∧
    ChannelSelector.new.id = Exactly.empty ∧
    (req.path = ["services"] →
      ((req.method = Method.get →
        dispatch env api req user =
          build_response (api.get_services [ServiceSelector.new])) ∧
       (req.method = Method.get →
        api.get_services [ServiceSelector.new] = Json.arr [] →
        dispatch env api req user =
          { status := 200, contentType := some "application/json",
            body := RespBody.str "[]" }) ∧
       (∀ s sels, req.method = Method.post →
        env.decodeUtf8 req.body = Except.ok s →
        env.parseServiceSelectors s = Except.ok sels →
        dispatch env api req user = build_response (api.get_services sels)))) ∧
    (req.path = ["channels"] →
      ((req.method = Method.get →
        dispatch env api req user =
          build_response (api.get_channels [ChannelSelector.new])) ∧
       (req.method = Method.get →
        api.get_channels [ChannelSelector.new] = Json.arr [] →
        dispatch env api req user =
          { status := 200, contentType := some "application/json",
            body := RespBody.str "[]" }) ∧
       (∀ s sels, req.method = Method.post →
        env.decodeUtf8 req.body = Except.ok s →
        env.parseChannelSelectors s = Except.ok sels →
        dispatch env api req user = build_response (api.get_channels sels)))) := by
  obtain ⟨url, method, path, auth, ct, body⟩ := req
  refine ⟨rfl, rfl, ?_, ?_⟩ <;>
    intro hpath <;> simp only at hpath <;> subst hpath <;>
    refine ⟨?_, ?_, ?_⟩
  · rintro rfl
    simp [dispatch, get_post_api]
  · rintro rfl hlist
    simp [dispatch, get_post_api, hlist, build_response, Json.serialize,
          Json.serializeArr]
  · rintro s sels rfl hdec hsels
    simp [dispatch, get_post_api, hdec, hsels]
  · rintro rfl
    simp [dispatch, get_post_api]
  · rintro rfl hlist
    simp [dispatch, get_post_api, hlist, build_response, Json.serialize,
          Json.serializeArr]
  · rintro s sels rfl hdec hsels
    simp [dispatch, get_post_api, hdec, hsels]

theorem collection_routes_spec_witness :
    dispatch testEnvOk testApi reqGetServices User.none =
      { status := 200, contentType := some "application/json",
        body := RespBody.str "[]" } ∧
    dispatch testEnvOk testApi reqPostServices User.none =
      build_response (testApi.get_services []) :=
  ⟨((collection_routes_spec testEnvOk testApi reqGetServices User.none).2.2.1
      rfl).2.1 rfl rfl,
   ((collection_routes_spec testEnvOk testApi reqPostServices User.none).2.2.1
      rfl).2.2 "body" [] rfl rfl rfl⟩

/-- C6: on every matched body-accepting route, a failure while decoding the
body (malformed JSON, or a required named field missing or mistyped) answers
status 400 with the serialized parse error as body, and the underlying
taxonomy-manager operation is never invoked: each conclusion is the
build_parse_error constant, independent of the universally quantified
manager. -/
theorem body_decode_failure_spec (env : Env) (api : Api) (req : HttpRequest)
    (user : User) :
    (∀ i c s e, req.method = Method.put → req.path = ["channel", i] →
      req.contentType = some c → starts_with c "application/json" = true →
      env.decodeUtf8 req.body = Except.ok s →
      env.parseJson s = Except.error e →
      dispatch env api req user = build_parse_error (ParseError.json e)) ∧
    (∀ s e, req.method = Method.post → req.path = ["services"] →
      env.decodeUtf8 req.body = Except.ok s →
      env.parseServiceSelectors s = Except.error e →
      dispatch env api req user = build_parse_error e) ∧
    (∀ s e, req.method = Method.post → req.path = ["channels"] →
      env.decodeUtf8 req.body = Except.ok s →
      env.parseChannelSelectors s = Except.error e →
      dispatch env api req user = build_parse_error e) ∧
    (∀ s e, req.method = Method.put → req.path = ["channels", "get"] →
      env.decodeUtf8 req.body = Except.ok s →
      env.parseChannelSelectorsWithFeature s = Except.error e →
      dispatch env api req user = build_parse_error e) ∧
    (∀ s e, req.method = Method.put → req.path = ["channels", "set"] →
      env.decodeUtf8 req.body = Except.ok s →
      env.parseTargetMap s = Except.error e →
      dispatch env api req user = build_parse_error e) ∧
    (∀ s e, (req.method = Method.post ∨ req.method = Method.delete) →
      (req.path = ["services", "tags"] ∨ req.path = ["channels", "tags"]) →
      env.decodeUtf8 req.body = Except.ok s →
      env.parseJson s = Except.error e →
      dispatch env api req user = build_parse_error (ParseError.json e)) ∧
    (∀ s j e, (req.method = Method.post ∨ req.method = Method.delete) →
      req.path = ["services", "tags"] →
      env.decodeUtf8 req.body = Except.ok s →
      env.parseJson s = Except.ok j →
      env.takeServiceSelectors j "services" = Except.error e →
      dispatch env api req user = build_parse_error e) ∧
    (∀ s j e, (req.method = Method.post ∨ req.method = Method.delete) →
      req.path = ["channels", "tags"] →
      env.decodeUtf8 req.body = Except.ok s →
      env.parseJson s = Except.ok j →
      env.takeChannelSelectors j "channels" = Except.error e →
      dispatch env api req user = build_parse_error e) ∧
    (∀ s j a e, (req.method = Method.post ∨ req.method = Method.delete) →
      req.path = ["services", "tags"] →
      env.decodeUtf8 req.body = Except.ok s →
      env.parseJson s = Except.ok j →
      env.takeServiceSelectors j "services" = Except.ok a →
      env.takeTags j "tags" = Except.error e →
      dispatch env api req user = build_parse_error e) ∧
    (∀ s j a e, (req.method = Method.post ∨ req.method = Method.delete) →
      req.path = ["channels", "tags"] →
      env.decodeUtf8 req.body = Except.ok s →
      env.parseJson s = Except.ok j →
      env.takeChannelSelectors j "channels" = Except.ok a →
      env.takeTags j "tags" = Except.error e →
      dispatch env api req user = build_parse_error e) := by
  obtain ⟨url, method, path, auth, ctH, body⟩ := req
  refine ⟨?_, ?_, ?_, ?_, ?_, ?_, ?_, ?_, ?_, ?_⟩
  · intro i c s e hm hp hct hst hdec hjson
    simp only at hm hp hct
    subst hm; subst hp; subst hct
    simp [dispatch, put_channel, hst, hdec, hjson]
  · intro s e hm hp hdec hsels
    simp only at hm hp
    subst hm; subst hp
    simp [dispatch, get_post_api, hdec, hsels]
  · intro s e hm hp hdec hsels
    simp only at hm hp
    subst hm; subst hp
    simp [dispatch, get_post_api, hdec, hsels]
  · intro s e hm hp hdec hsels
    simp only at hm hp
    subst hm; subst hp
    simp [dispatch, fetch_values_route, hdec, hsels]
  · intro s e hm hp hdec hsels
    simp only at hm hp
    subst hm; subst hp
    simp [dispatch, send_values_route, hdec, hsels]
  · intro s e hm hp hdec hjson
    simp only at hm hp
    rcases hp with rfl | rfl <;> rcases hm with rfl | rfl <;>
      simp [dispatch, payload_api2, hdec, hjson]
  · intro s j e hm hp hdec hjson htake
    simp only at hm hp
    subst hp
    rcases hm with rfl | rfl <;>
      simp [dispatch, payload_api2, hdec, hjson, htake]
  · intro s j e hm hp hdec hjson htake
    simp only at hm hp
    subst hp
    rcases hm with rfl | rfl <;>
      simp [dispatch, payload_api2, hdec, hjson, htake]
  · intro s j a e hm hp hdec hjson htake1 htake2
    simp only at hm hp
    subst hp
    rcases hm with rfl | rfl <;>
      simp [dispatch, payload_api2, hdec, hjson, htake1, htake2]
  · intro s j a e hm hp hdec hjson htake1 htake2
    simp only at hm hp
    subst hp
    rcases hm with rfl | rfl <;>
      simp [dispatch, payload_api2, hdec, hjson, htake1, htake2]

theorem body_decode_failure_spec_witness :
    dispatch testEnv testApi reqPostServices User.none =
      build_parse_error (ParseError.field "body" "missing") :=
  (body_decode_failure_spec testEnv testApi reqPostServices User.none).2.1
    "body" (ParseError.field "body" "missing") rfl rfl rfl rfl

end Foxbox
